import Mathlib

set_option maxRecDepth 200000
set_option maxHeartbeats 2000000

/-!
Verification of the Tamsil agent core (C++ sources under src/agent) against its
natural-language specification.  The C++ functions relevant to the claims are
shallowly embedded: strings become Lean strings (byte values via Char.toNat),
machine integers become Int or Nat with explicit wrap-around where the source
masks, fallible operations return Option, and effectful routines are modelled
as pure functions of their inputs (HTTP responses, clocks and file systems
become explicit parameters).
-/

namespace Crypto

/-- Word size modulus for 32-bit arithmetic. -/
def w32 : Nat := 4294967296

/-- 32-bit modular addition. -/
def add32 (a b : Nat) : Nat := (a + b) % w32

/-- 32-bit right rotation. -/
def rotr (n x : Nat) : Nat := ((x >>> n) ||| (x <<< (32 - n))) % w32

/-- Logical right shift. -/
def shr (n x : Nat) : Nat := x >>> n

/-- SHA-256 big sigma 0. -/
def bsig0 (x : Nat) : Nat := (rotr 2 x) ^^^ (rotr 13 x) ^^^ (rotr 22 x)

/-- SHA-256 big sigma 1. -/
def bsig1 (x : Nat) : Nat := (rotr 6 x) ^^^ (rotr 11 x) ^^^ (rotr 25 x)

/-- SHA-256 small sigma 0. -/
def ssig0 (x : Nat) : Nat := (rotr 7 x) ^^^ (rotr 18 x) ^^^ (shr 3 x)

/-- SHA-256 small sigma 1. -/
def ssig1 (x : Nat) : Nat := (rotr 17 x) ^^^ (rotr 19 x) ^^^ (shr 10 x)

/-- SHA-256 choice function; complement is taken inside 32 bits. -/
def chF (x y z : Nat) : Nat := (x &&& y) ^^^ ((x ^^^ (w32 - 1)) &&& z)

/-- SHA-256 majority function. -/
def majF (x y z : Nat) : Nat := (x &&& y) ^^^ (x &&& z) ^^^ (y &&& z)

/-- SHA-256 round constants. -/
def sha256K : List Nat :=
  [1116352408, 1899447441, 3049323471, 3921009573, 961987163, 1508970993,
   2453635748, 2870763221, 3624381080, 310598401, 607225278, 1426881987,
   1925078388, 2162078206, 2614888103, 3248222580, 3835390401, 4022224774,
   264347078, 604807628, 770255983, 1249150122, 1555081692, 1996064986,
   2554220882, 2821834349, 2952996808, 3210313671, 3336571891, 3584528711,
   113926993, 338241895, 666307205, 773529912, 1294757372, 1396182291,
   1695183700, 1986661051, 2177026350, 2456956037, 2730485921, 2820302411,
   3259730800, 3345764771, 3516065817, 3600352804, 4094571909, 275423344,
   430227734, 506948616, 659060556, 883997877, 958139571, 1322822218,
   1537002063, 1747873779, 1955562222, 2024104815, 2227730452, 2361852424,
   2428436474, 2756734187, 3204031479, 3329325298]

/-- SHA-256 initial hash words. -/
def sha256H0 : List Nat :=
  [1779033703, 3144134277, 1013904242, 2773480762,
   1359893119, 2600822924, 528734635, 1541459225]

/-- Working state of the SHA-256 compression function. -/
structure Sha256State where
  a : Nat
  b : Nat
  c : Nat
  d : Nat
  e : Nat
  f : Nat
  g : Nat
  h : Nat

/-- One SHA-256 round, consuming a (round constant, schedule word) pair. -/
def sha256Round (s : Sha256State) (kw : Nat × Nat) : Sha256State :=
  let t1 := add32 s.h (add32 (bsig1 s.e) (add32 (chF s.e s.f s.g) (add32 kw.1 kw.2)))
  let t2 := add32 (bsig0 s.a) (majF s.a s.b s.c)
  ⟨add32 t1 t2, s.a, s.b, s.c, add32 s.d t1, s.e, s.f, s.g⟩

/-- Big-endian packing of 4 bytes per 32-bit word. -/
def bytesToWords : List Nat → List Nat
  | b0 :: b1 :: b2 :: b3 :: rest => (((b0 * 256 + b1) * 256 + b2) * 256 + b3) :: bytesToWords rest
  | _ => []

/-- Extend the 16-word block schedule, one word per step. -/
def extendSchedule : Nat → List Nat → List Nat
  | 0, w => w
  | n + 1, w =>
      let t := w.length
      let x := add32 (add32 (ssig1 (w.getD (t - 2) 0)) (w.getD (t - 7) 0))
                     (add32 (ssig0 (w.getD (t - 15) 0)) (w.getD (t - 16) 0))
      extendSchedule n (w ++ [x])

/-- Compress one 64-byte block into the running hash words. -/
def compressBlock (hs : List Nat) (block : List Nat) : List Nat :=
  let ws := extendSchedule 48 (bytesToWords block)
  let s0 : Sha256State :=
    ⟨hs.getD 0 0, hs.getD 1 0, hs.getD 2 0, hs.getD 3 0,
     hs.getD 4 0, hs.getD 5 0, hs.getD 6 0, hs.getD 7 0⟩
  let s1 := (sha256K.zip ws).foldl sha256Round s0
  [add32 s0.a s1.a, add32 s0.b s1.b, add32 s0.c s1.c, add32 s0.d s1.d,
   add32 s0.e s1.e, add32 s0.f s1.f, add32 s0.g s1.g, add32 s0.h s1.h]

/-- Big-endian 8-byte encoding of a 64-bit length value. -/
def be8 (n : Nat) : List Nat :=
  [(n >>> 56) % 256, (n >>> 48) % 256, (n >>> 40) % 256, (n >>> 32) % 256,
   (n >>> 24) % 256, (n >>> 16) % 256, (n >>> 8) % 256, n % 256]

/-- SHA-256 message padding: 0x80, zeros, then the 64-bit bit length. -/
def sha256Pad (msg : List Nat) : List Nat :=
  let l := msg.length
  let k := (64 - ((l + 9) % 64)) % 64
  msg ++ [128] ++ List.replicate k 0 ++ be8 ((8 * l) % (2 ^ 64))

/-- Split a byte list into 64-byte chunks; the fuel argument (instantiated
with the list length, an upper bound on the chunk count) makes the recursion
structural so that the kernel can evaluate it. -/
def chunks64Go : Nat → List Nat → List (List Nat)
  | 0, _ => []
  | fuel + 1, l => if l = [] then [] else l.take 64 :: chunks64Go fuel (l.drop 64)

/-- Split a byte list into 64-byte chunks. -/
def chunks64 (l : List Nat) : List (List Nat) :=
  chunks64Go l.length l

/-- Big-endian bytes of one 32-bit word. -/
def word4 (x : Nat) : List Nat :=
  [(x >>> 24) % 256, (x >>> 16) % 256, (x >>> 8) % 256, x % 256]

/-- SHA-256 of a byte list, as 32 digest bytes. -/
def sha256 (msg : List Nat) : List Nat :=
  let hs := (chunks64 (sha256Pad msg)).foldl compressBlock sha256H0
  word4 (hs.getD 0 0) ++ word4 (hs.getD 1 0) ++ word4 (hs.getD 2 0) ++ word4 (hs.getD 3 0) ++
  word4 (hs.getD 4 0) ++ word4 (hs.getD 5 0) ++ word4 (hs.getD 6 0) ++ word4 (hs.getD 7 0)

theorem sha256_length (msg : List Nat) : (sha256 msg).length = 32 := by
  simp [sha256, word4]

theorem sha256_bytes_lt (msg : List Nat) : ∀ b ∈ sha256 msg, b < 256 := by
  intro b hb
  simp only [sha256, word4, List.mem_append, List.mem_cons, List.not_mem_nil, or_false] at hb
  omega

/-- HMAC-SHA256 over byte lists (64-byte block size). -/
def hmacSha256 (key msg : List Nat) : List Nat :=
  let k0 := if 64 < key.length then sha256 key else key
  let kp := k0 ++ List.replicate (64 - k0.length) 0
  let ip := kp.map (fun b => b ^^^ 54)
  let op := kp.map (fun b => b ^^^ 92)
  sha256 (op ++ sha256 (ip ++ msg))

theorem hmacSha256_length (key msg : List Nat) : (hmacSha256 key msg).length = 32 :=
  sha256_length _

theorem hmacSha256_bytes_lt (key msg : List Nat) : ∀ b ∈ hmacSha256 key msg, b < 256 :=
  sha256_bytes_lt _

/-- The base64 alphabet. -/
def base64Table : List Char :=
  "ABCDEFGHIJKLMNOPQRSTUVWXYZabcdefghijklmnopqrstuvwxyz0123456789+/".data

/-- Base64 digit for a 6-bit value. -/
def b64c (n : Nat) : Char := base64Table.getD n 'A'

/-- Base64 encoding with padding and no newlines (EVP_EncodeBlock). -/
def base64Encode : List Nat → List Char
  | [] => []
  | [a] => [b64c (a >>> 2), b64c ((a % 4) <<< 4), '=', '=']
  | [a, b] => [b64c (a >>> 2), b64c (((a % 4) <<< 4) ||| (b >>> 4)), b64c ((b % 16) <<< 2), '=']
  | a :: b :: c :: rest =>
      [b64c (a >>> 2), b64c (((a % 4) <<< 4) ||| (b >>> 4)),
       b64c (((b % 16) <<< 2) ||| (c >>> 6)), b64c (c % 64)] ++ base64Encode rest

/-- Lowercase hex digit for a 4-bit value. -/
def hexc (n : Nat) : Char := "0123456789abcdef".data.getD n '0'

/-- Lowercase hex encoding of a byte list, two digits per byte. -/
def hexEncode (l : List Nat) : List Char :=
  l.flatMap (fun b => [hexc ((b >>> 4) &&& 15), hexc (b &&& 15)])

end Crypto

/-! ## agent_signing.cpp -/

namespace agent

/-- Bytes of a C++ std::string, modelled as the code points of a Lean string.
All strings the agent signs are ASCII, where the two notions agree. -/
def strBytes (s : String) : List Nat := s.data.map Char.toNat

/-- SignPayload (agent_signing.cpp): HMAC-SHA256 over `decimal(ts) || "." || payload`,
base64-encoded.  The C++ throws on an empty key; this is modelled as `none`. -/
def SignPayload (shared_key payload : String) (timestamp_seconds : Int) : Option String :=
  if shared_key = "" then none
  else
    some (String.mk (Crypto.base64Encode
      (Crypto.hmacSha256 (strBytes shared_key)
        (strBytes (toString timestamp_seconds ++ "." ++ payload)))))

/-- SecureEquals (agent_signing.cpp): length check, then an accumulated OR of
byte XORs with no short-circuit. -/
def SecureEquals (lhs rhs : String) : Bool :=
  if lhs.length ≠ rhs.length then false
  else
    ((List.zipWith (fun a b => Char.toNat a ^^^ Char.toNat b) lhs.data rhs.data).foldl
      (fun r x => r ||| x) 0) == 0

/-- VerifySignature (agent_signing.cpp): false on empty key, otherwise
constant-time comparison of the recomputed signature. -/
def VerifySignature (shared_key payload : String) (timestamp_seconds : Int)
    (signature : String) : Bool :=
  if shared_key = "" then false
  else
    match SignPayload shared_key payload timestamp_seconds with
    | some expected => SecureEquals expected signature
    | none => false

end agent

/-! ## agent_retry.cpp -/

namespace agent

/-- The doubling loop inside ComputeHeartbeatIntervalSeconds: doubles the
interval once per remaining failure, returning the cap as soon as it is hit. -/
def heartbeatLoopGo (max_interval : Int) : Nat → Int → Int
  | 0, interval => min interval max_interval
  | n + 1, interval =>
      let doubled := interval * 2
      if max_interval ≤ doubled then max_interval
      else heartbeatLoopGo max_interval n doubled

/-- ComputeHeartbeatIntervalSeconds (agent_retry.cpp). -/
def ComputeHeartbeatIntervalSeconds (base_interval_seconds failure_count max_interval_seconds : Int) : Int :=
  if base_interval_seconds ≤ 0 then 30
  else if failure_count ≤ 0 then base_interval_seconds
  else heartbeatLoopGo max_interval_seconds failure_count.toNat base_interval_seconds

end agent

/-! ## Signing lemmas -/

namespace agent

theorem lor_eq_zero_iff (a b : Nat) : a ||| b = 0 ↔ a = 0 ∧ b = 0 := by
  constructor
  · intro h
    constructor <;>
      · apply Nat.eq_of_testBit_eq
        intro i
        have := congrArg (Nat.testBit · i) h
        simp only [Nat.testBit_or, Nat.zero_testBit, Bool.or_eq_false_iff] at this
        simp [this.1, this.2]
  · rintro ⟨rfl, rfl⟩; rfl

theorem charToNat_injective : Function.Injective Char.toNat := by
  intro a b h
  apply Char.ext
  apply UInt32.eq_of_toBitVec_eq
  apply BitVec.eq_of_toNat_eq
  exact h

theorem foldl_lor_eq_zero (l : List Nat) (r : Nat) :
    l.foldl (fun r x => r ||| x) r = 0 ↔ r = 0 ∧ ∀ x ∈ l, x = 0 := by
  induction l generalizing r with
  | nil => simp
  | cons y ys ih =>
      simp only [List.foldl_cons, ih, lor_eq_zero_iff, List.mem_cons]
      constructor
      · rintro ⟨⟨hr, hy⟩, hall⟩
        exact ⟨hr, fun x hx => hx.elim (fun hxy => hxy ▸ hy) (hall x)⟩
      · rintro ⟨hr, hall⟩
        exact ⟨⟨hr, hall y (Or.inl rfl)⟩, fun x hx => hall x (Or.inr hx)⟩

theorem zip_xor_all_zero_iff (l1 : List Char) : ∀ l2 : List Char, l1.length = l2.length →
    ((∀ x ∈ List.zipWith (fun a b => Char.toNat a ^^^ Char.toNat b) l1 l2, x = 0) ↔ l1 = l2) := by
  induction l1 with
  | nil =>
      intro l2 hlen
      cases l2 with
      | nil => simp
      | cons _ _ => simp at hlen
  | cons a as ih =>
      intro l2 hlen
      cases l2 with
      | nil => simp at hlen
      | cons b bs =>
          simp only [List.length_cons, Nat.add_right_cancel_iff] at hlen
          simp only [List.zipWith_cons_cons, List.mem_cons, List.cons.injEq]
          constructor
          · intro h
            have hab : Char.toNat a ^^^ Char.toNat b = 0 := h _ (Or.inl rfl)
            refine ⟨charToNat_injective (Nat.xor_eq_zero.mp hab), ?_⟩
            exact (ih bs hlen).mp fun x hx => h x (Or.inr hx)
          · rintro ⟨rfl, rfl⟩
            intro x hx
            rcases hx with hx | hx
            · rw [hx, Nat.xor_self]
            · exact ((ih as rfl).mpr rfl) x hx

/-- SecureEquals decides string equality: the length gate plus an accumulated
OR of byte XORs succeeds exactly on identical strings. -/
theorem SecureEquals_eq_true_iff (a b : String) : SecureEquals a b = true ↔ a = b := by
  unfold SecureEquals
  rcases eq_or_ne a.length b.length with hlen | hlen
  · have hlen' : a.data.length = b.data.length := hlen
    rw [if_neg (by simp [hlen])]
    simp only [beq_iff_eq, foldl_lor_eq_zero, eq_self_iff_true, true_and]
    rw [zip_xor_all_zero_iff a.data b.data hlen']
    constructor
    · intro h
      cases a
      cases b
      exact congrArg String.mk h
    · intro h
      rw [h]
  · rw [if_pos hlen]
    exact iff_of_false (by simp) (fun hab => hlen (by rw [hab]))

end agent

/-! ## Heartbeat interval lemmas -/

namespace agent

theorem heartbeatLoopGo_eq (max_interval : Int) (n : Nat) (interval : Int)
    (hpos : 1 ≤ interval) :
    heartbeatLoopGo max_interval n interval = min (interval * 2 ^ n) max_interval := by
  induction n generalizing interval with
  | zero => simp [heartbeatLoopGo]
  | succ m ih =>
      simp only [heartbeatLoopGo]
      split
      · next hle =>
          have h2 : (1 : Int) ≤ 2 ^ m := one_le_pow₀ (by norm_num)
          have : interval * 2 ≤ interval * 2 * 2 ^ m := by nlinarith
          rw [min_eq_right (by rw [pow_succ, ← mul_assoc]; linarith)]
      · next hgt =>
          rw [ih (interval * 2) (by linarith)]
          ring_nf

theorem ComputeHeartbeatIntervalSeconds_eq (base f cap : Int)
    (hbase : 0 < base) :
    ComputeHeartbeatIntervalSeconds base f cap =
      if f ≤ 0 then base else min (base * 2 ^ f.toNat) cap := by
  unfold ComputeHeartbeatIntervalSeconds
  rw [if_neg (by omega)]
  split
  · rfl
  · exact heartbeatLoopGo_eq cap f.toNat base hbase

end agent

/-! ## named_pipe_ipc.cpp -/

namespace agent_ipc

/-- ASCII alphanumeric test, the behaviour of iswalnum in the C locale. -/
def isAlnumAscii (c : Char) : Bool :=
  (('0' ≤ c ∧ c ≤ '9') ∨ ('A' ≤ c ∧ c ≤ 'Z') ∨ ('a' ≤ c ∧ c ≤ 'z') : Prop)

/-- Characters the sanitiser keeps unchanged. -/
def pipeKeep (c : Char) : Bool := isAlnumAscii c || c = '_' || c = '-'

/-- Path separator characters the sanitiser silently drops. -/
def pipeDrop (c : Char) : Bool := c = '\\' || c = '.' || c = ':' || c = '/'

/-- SanitizePipeName (named_pipe_ipc.cpp): keep [A-Za-z0-9_-], skip path
separators, replace everything else with an underscore; an empty result
falls back to the fixed default name. -/
def SanitizePipeName (s : String) : String :=
  let out := s.data.foldl
    (fun acc c =>
      if pipeKeep c then acc ++ [c]
      else if pipeDrop c then acc
      else acc ++ ['_']) []
  if out = [] then "tamsil_agent_pipe" else String.mk out

end agent_ipc

/-! ## Civil time: gmtime / timegm / strftime style helpers shared by the
agent sources (ISO-8601 UTC, second resolution). -/

namespace agent

/-- Days since 1970-01-01 of a civil date (Hinnant day-count algorithm, the
behaviour of timegm composed with a normalised `std::tm`). -/
def daysFromCivil (y m d : Int) : Int :=
  let y2 := if m ≤ 2 then y - 1 else y
  let era := (if 0 ≤ y2 then y2 else y2 - 399).tdiv 400
  let yoe := y2 - era * 400
  let doy := (153 * (if 2 < m then m - 3 else m + 9) + 2).tdiv 5 + d - 1
  let doe := yoe * 365 + yoe.tdiv 4 - yoe.tdiv 100 + doy
  era * 146097 + doe - 719468

/-- Civil date (year, month, day) of a day count since 1970-01-01. -/
def civilFromDays (z0 : Int) : Int × Int × Int :=
  let z := z0 + 719468
  let era := (if 0 ≤ z then z else z - 146096).tdiv 146097
  let doe := z - era * 146097
  let yoe := (doe - doe.tdiv 1460 + doe.tdiv 36524 - doe.tdiv 146096).tdiv 365
  let y := yoe + era * 400
  let doy := doe - (365 * yoe + yoe.tdiv 4 - yoe.tdiv 100)
  let mp := (5 * doy + 2).tdiv 153
  let d := doy - (153 * mp + 2).tdiv 5 + 1
  let m := if mp < 10 then mp + 3 else mp - 9
  (if m ≤ 2 then y + 1 else y, m, d)

/-- Two-digit zero padding of a field value. -/
def pad2 (n : Int) : String :=
  if n < 10 then "0" ++ toString n else toString n

/-- ISO-8601 UTC formatting of an epoch-seconds value, the behaviour of
gmtime followed by put_time with format %Y-%m-%dT%H:%M:%SZ (equally %FT%TZ). -/
def ToIsoTimestamp (t : Int) : String :=
  let days := t.fdiv 86400
  let secs := t.fmod 86400
  let ymd := civilFromDays days
  toString ymd.1 ++ "-" ++ pad2 ymd.2.1 ++ "-" ++ pad2 ymd.2.2 ++ "T" ++
    pad2 (secs.tdiv 3600) ++ ":" ++ pad2 ((secs.tdiv 60).tmod 60) ++ ":" ++
    pad2 (secs.tmod 60) ++ "Z"

/-- Read an exact count of decimal digits off the front of a char list. -/
def readDigits (k : Nat) (l : List Char) : Option (Nat × List Char) :=
  match k with
  | 0 => some (0, l)
  | k + 1 =>
      match l with
      | [] => none
      | c :: rest =>
          if '0' ≤ c ∧ c ≤ '9' then
            match readDigits k rest with
            | some (n, rest2) => some ((c.toNat - 48) * 10 ^ k + n, rest2)
            | none => none
          else none

/-- Expect a literal character off the front of a char list. -/
def expectChar (c : Char) (l : List Char) : Option (List Char) :=
  match l with
  | [] => none
  | x :: rest => if x = c then some rest else none

/-- ParseIsoTimestamp (agent_patch_jobs.cpp): parse %Y-%m-%dT%H:%M:%SZ into
epoch seconds via timegm; an empty or unparsable value yields the current
time.  Canonical fixed-width fields are modelled. -/
def ParseIsoTimestamp (value : String) (now : Int) : Int :=
  if value = "" then now
  else
    match readDigits 4 value.data with
    | none => now
    | some (y, r1) =>
      match expectChar '-' r1 with
      | none => now
      | some r2 =>
        match readDigits 2 r2 with
        | none => now
        | some (mo, r3) =>
          match expectChar '-' r3 with
          | none => now
          | some r4 =>
            match readDigits 2 r4 with
            | none => now
            | some (d, r5) =>
              match expectChar 'T' r5 with
              | none => now
              | some r6 =>
                match readDigits 2 r6 with
                | none => now
                | some (hh, r7) =>
                  match expectChar ':' r7 with
                  | none => now
                  | some r8 =>
                    match readDigits 2 r8 with
                    | none => now
                    | some (mi, r9) =>
                      match expectChar ':' r9 with
                      | none => now
                      | some r10 =>
                        match readDigits 2 r10 with
                        | none => now
                        | some (ss, _) =>
                          daysFromCivil (Int.ofNat y) (Int.ofNat mo) (Int.ofNat d) * 86400 +
                            (Int.ofNat hh) * 3600 + (Int.ofNat mi) * 60 + Int.ofNat ss

end agent

/-! ## agent_defence.cpp -/

namespace agent

/-- Response actions of the defence engine. -/
inductive ResponseAction where
  | kObserveOnly
  | kKillProcess
  | kQuarantineFile
  | kBlockNetwork
  | kPreventExecution
deriving DecidableEq, Inhabited

/-- Policy modes. -/
inductive PolicyMode where
  | kObserveOnly
  | kEnforce
deriving DecidableEq, Inhabited

/-- Signal types produced by the sensor. -/
inductive BehaviourSignalType where
  | kProcess
  | kMemory
  | kFile
  | kPrivilege
deriving DecidableEq, Inhabited

/-- A behaviour signal (agent_defence.h).  Confidence is a double in the
source; it is embedded as a rational, which preserves every comparison the
engine performs. -/
structure BehaviourSignal where
  type : BehaviourSignalType
  name : String
  rule_id : String
  process_id : String
  file_path : String
  command_line : String
  confidence : ℚ
  observed_at : String
  response_defined : Bool
  requested_response : ResponseAction
deriving DecidableEq

/-- A defence finding (agent_defence.h, with the command_line field the
implementation file populates). -/
structure DefenceFinding where
  detection_id : String
  rule_id : String
  behaviour_signature : String
  confidence : ℚ
  process_id : String
  file_path : String
  command_line : String
  timestamp : String
  proposed_response : ResponseAction
  decision_reason : String
deriving DecidableEq

/-- Evidence of a defence decision (agent_defence.h). -/
structure DefenceEvidence where
  finding_id : String
  policy_id : String
  action : ResponseAction
  permitted_by_policy : Bool
  decision_reason : String
  before_state : String
  after_state : String
  timestamp : String
deriving DecidableEq

/-- A defence policy (agent_defence.h). -/
structure DefencePolicy where
  policy_id : String
  mode : PolicyMode
  min_confidence_threshold : ℚ
  max_actions_per_window : Int
  action_window_seconds : Int
  allow_kill_process : Bool
  allow_quarantine_file : Bool
  allow_block_network : Bool
  allow_prevent_execution : Bool
deriving DecidableEq

/-- RequiresProcessId (agent_defence.cpp). -/
def RequiresProcessId (action : ResponseAction) : Bool :=
  action = ResponseAction.kKillProcess ∨ action = ResponseAction.kBlockNetwork

/-- RequiresFilePath (agent_defence.cpp). -/
def RequiresFilePath (action : ResponseAction) : Bool :=
  action = ResponseAction.kQuarantineFile ∨ action = ResponseAction.kPreventExecution

/-- IsRateLimited (agent_defence.cpp): counts recorded action timestamps not
older than the window and compares against the per-window maximum.  The
module state (recorded timestamps) and clock are explicit. -/
def IsRateLimited (policy : DefencePolicy) (action_timestamps : List Int) (now : Int) : Bool :=
  if policy.max_actions_per_window ≤ 0 ∨ policy.action_window_seconds ≤ 0 then false
  else
    let cutoff := now - policy.action_window_seconds
    policy.max_actions_per_window ≤
      ((action_timestamps.filter (fun entry => cutoff ≤ entry)).length : Int)

/-- RecordActionTimestamp (agent_defence.cpp): push the current time, then
drop entries older than the window. -/
def RecordActionTimestamp (policy : DefencePolicy) (action_timestamps : List Int)
    (now : Int) : List Int :=
  let cutoff := now - policy.action_window_seconds
  (action_timestamps ++ [now]).filter (fun entry => ¬ entry < cutoff)

/-- EvaluateSignal (agent_defence.cpp): the top-to-bottom rule cascade that
derives a finding from a behaviour signal. -/
def EvaluateSignal (policy : DefencePolicy) (action_timestamps : List Int) (now : Int)
    (signal : BehaviourSignal) : DefenceFinding :=
  let base : DefenceFinding :=
    { detection_id := "DEF-" ++ signal.name
      rule_id := signal.rule_id
      behaviour_signature := signal.name
      confidence := signal.confidence
      process_id := signal.process_id
      file_path := signal.file_path
      command_line := signal.command_line
      timestamp := if signal.observed_at = "" then ToIsoTimestamp now else signal.observed_at
      proposed_response := ResponseAction.kObserveOnly
      decision_reason := "" }
  if base.rule_id = "" then
    { base with proposed_response := ResponseAction.kObserveOnly,
                decision_reason := "missing rule identifier" }
  else if ¬ signal.response_defined then
    { base with proposed_response := ResponseAction.kObserveOnly,
                decision_reason := "response undefined" }
  else if signal.confidence < policy.min_confidence_threshold then
    { base with proposed_response := ResponseAction.kObserveOnly,
                decision_reason := "confidence below threshold" }
  else
    let f1 := { base with proposed_response := signal.requested_response }
    if f1.proposed_response = ResponseAction.kObserveOnly then
      { f1 with decision_reason := "rule observe-only" }
    else if RequiresProcessId f1.proposed_response ∧ f1.process_id = "" then
      { f1 with proposed_response := ResponseAction.kObserveOnly,
                decision_reason := "missing process identifier" }
    else if RequiresFilePath f1.proposed_response ∧ f1.file_path = "" then
      { f1 with proposed_response := ResponseAction.kObserveOnly,
                decision_reason := "missing file path" }
    else if policy.mode = PolicyMode.kObserveOnly then
      { f1 with proposed_response := ResponseAction.kObserveOnly,
                decision_reason := "policy observe-only" }
    else
      let f2 :=
        if IsRateLimited policy action_timestamps now then
          { f1 with proposed_response := ResponseAction.kObserveOnly,
                    decision_reason := "rate limited" }
        else f1
      if f2.decision_reason = "" then { f2 with decision_reason := "action permitted" }
      else f2

/-- IsResponseAllowed (agent_defence.cpp). -/
def IsResponseAllowed (policy : DefencePolicy) (action : ResponseAction) : Bool :=
  if action = ResponseAction.kObserveOnly then true
  else if policy.mode = PolicyMode.kObserveOnly then false
  else
    match action with
    | ResponseAction.kKillProcess => policy.allow_kill_process
    | ResponseAction.kQuarantineFile => policy.allow_quarantine_file
    | ResponseAction.kBlockNetwork => policy.allow_block_network
    | ResponseAction.kPreventExecution => policy.allow_prevent_execution
    | ResponseAction.kObserveOnly => true

/-- ApplyResponse (agent_defence.cpp): permission check, timestamp recording
for permitted enforcement actions, and downgrade of unpermitted actions.
Returns the evidence together with the updated timestamp window. -/
def ApplyResponse (policy : DefencePolicy) (action_timestamps : List Int) (now : Int)
    (finding : DefenceFinding) : DefenceEvidence × List Int :=
  let evidence0 : DefenceEvidence :=
    { finding_id := finding.detection_id
      policy_id := policy.policy_id
      action := finding.proposed_response
      permitted_by_policy := IsResponseAllowed policy finding.proposed_response
      decision_reason := finding.decision_reason
      before_state := "capture-before-state"
      after_state := "capture-after-state"
      timestamp := ToIsoTimestamp now }
  let timestamps1 :=
    if evidence0.action ≠ ResponseAction.kObserveOnly ∧ evidence0.permitted_by_policy then
      RecordActionTimestamp policy action_timestamps now
    else action_timestamps
  let evidence1 :=
    if ¬ evidence0.permitted_by_policy then
      { evidence0 with action := ResponseAction.kObserveOnly,
                       decision_reason := "action blocked by policy" }
    else evidence0
  (evidence1, timestamps1)

end agent

/-! ## core/evidence_impl.cpp -/

namespace agent_evidence

/-- A file system snapshot: storage paths mapped to byte contents.  A path
that is absent does not exist (and cannot be opened). -/
def FileSystem := List (String × List Nat)

/-- Lookup of a path in a file system snapshot. -/
def FileSystem.read (fs : FileSystem) (path : String) : Option (List Nat) :=
  List.lookup path fs

/-- An evidence item (agent_evidence.h); captured_at is epoch seconds. -/
structure EvidenceItem where
  evidence_id : String
  source : String
  type : String
  related_id : String
  hash : String
  storage_path : String
  captured_at : Int
deriving DecidableEq

/-- ComputeSHA256Hex (core/evidence_impl.cpp): streamed SHA-256 of a file as
lowercase hex; the empty string when the file cannot be opened.  Streaming in
4096-byte chunks hashes exactly the whole contents. -/
def ComputeSHA256Hex (fs : FileSystem) (path : String) : String :=
  match fs.read path with
  | none => ""
  | some contents => String.mk (Crypto.hexEncode (Crypto.sha256 contents))

/-- SealEvidence (core/evidence_impl.cpp): find the first item with the given
id; if its artefact file exists, fill the hash from the file contents, else
leave the store unchanged.  The store is the mutex-guarded vector. -/
def SealEvidence (fs : FileSystem) (eid : String) :
    List EvidenceItem → List EvidenceItem
  | [] => []
  | it :: rest =>
      if it.evidence_id = eid then
        if (fs.read it.storage_path).isSome then
          { it with hash := ComputeSHA256Hex fs it.storage_path } :: rest
        else it :: rest
      else it :: SealEvidence fs eid rest

/-- EscapeJsonString (core/evidence_impl.cpp). -/
def EscapeJsonString (s : String) : String :=
  String.mk (s.data.flatMap fun c =>
    if c = '\\' then ['\\', '\\']
    else if c = '"' then ['\\', '"']
    else if c = '\n' then ['\\', 'n']
    else if c = '\r' then ['\\', 'r']
    else if c = '\t' then ['\\', 't']
    else [c])

/-- EnqueueUplinkEvidence (core/evidence_impl.cpp): refuse when the queue
directory, evidence id or hash is empty; otherwise produce the spool file
path `queue_dir/evidence_<id>.json` and the flat JSON object written to it.
The directory that the writer creates is the queue directory itself. -/
def EnqueueUplinkEvidence (queue_dir evidence_id tenant_id asset_id source type
    related_id hash storage_uri captured_at : String) : Option (String × String) :=
  if queue_dir = "" ∨ evidence_id = "" ∨ hash = "" then none
  else
    some (queue_dir ++ "/" ++ ("evidence_" ++ evidence_id ++ ".json"),
      "\x7b" ++
      "\"kind\":\"evidence\"," ++
      "\"evidence_id\":\"" ++ EscapeJsonString evidence_id ++ "\"," ++
      "\"tenant_id\":\"" ++ EscapeJsonString tenant_id ++ "\"," ++
      "\"asset_id\":\"" ++ EscapeJsonString asset_id ++ "\"," ++
      "\"source\":\"" ++ EscapeJsonString source ++ "\"," ++
      "\"type\":\"" ++ EscapeJsonString type ++ "\"," ++
      "\"related_id\":\"" ++ EscapeJsonString related_id ++ "\"," ++
      "\"hash\":\"" ++ EscapeJsonString hash ++ "\"," ++
      "\"storage_uri\":\"" ++ EscapeJsonString storage_uri ++ "\"," ++
      "\"captured_at\":\"" ++ EscapeJsonString captured_at ++ "\"" ++
      "\x7d")

end agent_evidence

/-! ## agent_patch_jobs.cpp -/

namespace agent_patch

/-- The agent configuration (agent_config.h, taking the union of the config
shapes the sources use, per the specification design note). -/
structure Config where
  transport_url : String := ""
  ingestion_url : String := ""
  tenant_id : String := ""
  asset_id : String := ""
  identity_id : String := ""
  agent_version : String := ""
  hostname : String := ""
  os_name : String := ""
  trust_state : String := ""
  shared_key : String := ""
  cert_fingerprint : String := ""
  identity_header : String := ""
  api_key : String := ""
  heartbeat_interval_seconds : Int := 0
  watchdog_timeout_seconds : Int := 0
  max_heartbeat_interval_seconds : Int := 0
  patch_poll_interval_seconds : Int := 0
  expected_binary_hash : String := ""
deriving DecidableEq, Inhabited

/-- A patch descriptor (agent_patch_jobs.h; agent_execution.h declares the
same field-for-field shape). -/
structure PatchDescriptor where
  patch_id : String
  title : String
  vendor : String
  severity : String
  kb : String
deriving DecidableEq, Inhabited

/-- A patch job command (agent_patch_jobs.h); scheduled_at is epoch seconds. -/
structure PatchJobCommand where
  job_id : String := ""
  asset_id : String := ""
  reboot_policy : String := ""
  scheduled_at : Int := 0
  scheduled_at_raw : String := ""
  patches : List PatchDescriptor := []
  issued_at_epoch : Int := 0
  nonce : String := ""
  signature : String := ""
deriving DecidableEq, Inhabited

/-- A patch job acknowledgement (agent_patch_jobs.h). -/
structure PatchJobAck where
  job_id : String := ""
  status : String := ""
  detail : String := ""
  acknowledged_at : Int := 0
deriving DecidableEq, Inhabited

/-- The signature skew tolerance (agent_patch_jobs.cpp). -/
def kSignatureSkewSeconds : Int := 300

/-- std::llabs. -/
def llabs (x : Int) : Int := if x < 0 then -x else x

/-- JsonEscape (agent_patch_jobs.cpp). -/
def JsonEscape (s : String) : String :=
  String.mk (s.data.flatMap fun c =>
    if c = '"' then ['\\', '"']
    else if c = '\\' then ['\\', '\\']
    else if c = '\n' then ['\\', 'n']
    else if c = '\r' then ['\\', 'r']
    else if c = '\t' then ['\\', 't']
    else [c])

/-- BuildIsoTimestamp (agent_patch_jobs.cpp): gmtime with %FT%TZ. -/
def BuildIsoTimestamp (t : Int) : String := agent.ToIsoTimestamp t

/-- std::string::find of a substring at or after a start position. -/
def strFind (hay needle : List Char) (start : Nat) : Option Nat :=
  (List.range (hay.length + 1)).find?
    (fun i => decide (start ≤ i) && needle.isPrefixOf (hay.drop i))

/-- std::string::find of a single character at or after a start position. -/
def strFindChar (hay : List Char) (c : Char) (start : Nat) : Option Nat :=
  strFind hay [c] start

/-- std::string::find_first_of over a character set. -/
def findFirstOf (hay : List Char) (set : List Char) (start : Nat) : Option Nat :=
  (List.range hay.length).find?
    (fun i => decide (start ≤ i) &&
      match hay.get? i with
      | some c => set.contains c
      | none => false)

/-- std::string::find_first_not_of over a character set. -/
def findFirstNotOf (hay : List Char) (set : List Char) (start : Nat) : Option Nat :=
  (List.range hay.length).find?
    (fun i => decide (start ≤ i) &&
      match hay.get? i with
      | some c => ! set.contains c
      | none => false)

/-- std::string::substr. -/
def substrList (hay : List Char) (pos len : Nat) : List Char :=
  (hay.drop pos).take len

/-- The decimal digit characters. -/
def digitChars : List Char := "0123456789".data

/-- Value of a decimal digit string. -/
def digitsToNat (l : List Char) : Nat :=
  l.foldl (fun acc c => acc * 10 + (c.toNat - 48)) 0

/-- ExtractStringValue (agent_patch_jobs.cpp): the ad hoc JSON string-field
scan over the raw response text. -/
def ExtractStringValue (json : List Char) (key : String) : String :=
  let needle := '"' :: (key.data ++ ['"'])
  match strFind json needle 0 with
  | none => ""
  | some start0 =>
      match strFindChar json ':' (start0 + needle.length) with
      | none => ""
      | some start1 =>
          match strFindChar json '"' start1 with
          | none => ""
          | some start2 =>
              match strFindChar json '"' (start2 + 1) with
              | none => ""
              | some endPos => String.mk (substrList json (start2 + 1) (endPos - (start2 + 1)))

/-- ExtractLongValue (agent_patch_jobs.cpp): the ad hoc JSON integer-field
scan; out-of-range values make stoll throw, caught as 0. -/
def ExtractLongValue (json : List Char) (key : String) : Int :=
  let needle := '"' :: (key.data ++ ['"'])
  match strFind json needle 0 with
  | none => 0
  | some start0 =>
      match strFindChar json ':' (start0 + needle.length) with
      | none => 0
      | some start1 =>
          match findFirstOf json digitChars start1 with
          | none => 0
          | some start2 =>
              let endPos := (findFirstNotOf json digitChars start2).getD json.length
              let n := digitsToNat (substrList json start2 (endPos - start2))
              if n ≤ 9223372036854775807 then (n : Int) else 0

/-- The object scan inside ExtractObjectArray: walk the characters tracking
brace depth, collecting each balanced top-level object, stopping at a
depth-zero closing bracket. -/
def scanObjects (json : List Char) : List Char → Nat → Int → Option Nat →
    List (List Char) → List (List Char)
  | [], _, _, _, acc => acc
  | c :: rest, idx, depth, objStart, acc =>
      if c = '{' then
        scanObjects json rest (idx + 1) (depth + 1)
          (if depth = 0 then some idx else objStart) acc
      else if c = '}' then
        let depth2 := depth - 1
        match objStart with
        | some s =>
            if depth2 = 0 then
              scanObjects json rest (idx + 1) depth2 none
                (acc ++ [substrList json s (idx - s + 1)])
            else scanObjects json rest (idx + 1) depth2 objStart acc
        | none => scanObjects json rest (idx + 1) depth2 objStart acc
      else if c = ']' ∧ depth = 0 then acc
      else scanObjects json rest (idx + 1) depth objStart acc

/-- ExtractObjectArray (agent_patch_jobs.cpp): collect the brace-balanced
objects of a JSON array field. -/
def ExtractObjectArray (json : List Char) (key : String) : List (List Char) :=
  let needle := '"' :: (key.data ++ ['"'])
  match strFind json needle 0 with
  | none => []
  | some start0 =>
      match strFindChar json '[' (start0 + needle.length) with
      | none => []
      | some sb => scanObjects json (json.drop (sb + 1)) (sb + 1) 0 none []

/-- BuildSignaturePayload (agent_patch_jobs.cpp): the canonical signing JSON
with fields in fixed order and no insignificant whitespace. -/
def BuildSignaturePayload (command : PatchJobCommand) : String :=
  let scheduled_at :=
    if command.scheduled_at_raw = "" then BuildIsoTimestamp command.scheduled_at
    else command.scheduled_at_raw
  let patchPart (patch : PatchDescriptor) : String :=
    "\x7b" ++
    "\"patch_id\":\"" ++ JsonEscape patch.patch_id ++ "\"," ++
    "\"title\":\"" ++ JsonEscape patch.title ++ "\"," ++
    "\"vendor\":\"" ++ JsonEscape patch.vendor ++ "\"," ++
    "\"severity\":\"" ++ JsonEscape patch.severity ++ "\"," ++
    "\"kb\":\"" ++ JsonEscape patch.kb ++ "\"" ++
    "\x7d"
  "\x7b" ++
  "\"job_id\":\"" ++ JsonEscape command.job_id ++ "\"," ++
  "\"asset_id\":\"" ++ JsonEscape command.asset_id ++ "\"," ++
  "\"scheduled_at\":\"" ++ JsonEscape scheduled_at ++ "\"," ++
  "\"reboot_policy\":\"" ++ JsonEscape command.reboot_policy ++ "\"," ++
  "\"issued_at\":" ++ toString command.issued_at_epoch ++ "," ++
  "\"nonce\":\"" ++ JsonEscape command.nonce ++ "\"," ++
  "\"patches\":[" ++ String.intercalate "," (command.patches.map patchPart) ++ "]" ++
  "\x7d"

/-- ValidateSignature (agent_patch_jobs.cpp): shared-key presence, timestamp
skew window, then HMAC verification over the canonical payload. -/
def ValidateSignature (config : Config) (command : PatchJobCommand) (now : Int) : Bool :=
  if config.shared_key = "" then false
  else if command.issued_at_epoch = 0 ∨
      kSignatureSkewSeconds < llabs (now - command.issued_at_epoch) then false
  else agent.VerifySignature config.shared_key (BuildSignaturePayload command)
    command.issued_at_epoch command.signature

/-- PollNextPatchJob (agent_patch_jobs.cpp): issue the signed GET (curl
success and HTTP status are explicit inputs), parse the command fields out of
the body, and validate asset binding and signature.  `none` models a false
return with no command produced. -/
def PollNextPatchJob (config : Config) (curl_ok : Bool) (http_code : Int)
    (response : String) (now : Int) : Option PatchJobCommand :=
  if ¬ curl_ok ∨ config.shared_key = "" then none
  else if http_code = 204 then none
  else if http_code < 200 ∨ 300 ≤ http_code then none
  else
    let json := response.data
    let job_id := ExtractStringValue json "job_id"
    if job_id = "" then none
    else
      let scheduled_at_raw := ExtractStringValue json "scheduled_at"
      let command : PatchJobCommand :=
        { job_id := job_id
          asset_id := ExtractStringValue json "asset_id"
          reboot_policy := ExtractStringValue json "reboot_policy"
          issued_at_epoch := ExtractLongValue json "issued_at"
          nonce := ExtractStringValue json "nonce"
          signature := ExtractStringValue json "signature"
          scheduled_at_raw := scheduled_at_raw
          scheduled_at := agent.ParseIsoTimestamp scheduled_at_raw now
          patches := (ExtractObjectArray json "patches").filterMap (fun obj =>
            let patch : PatchDescriptor :=
              { patch_id := ExtractStringValue obj "patch_id"
                title := ExtractStringValue obj "title"
                vendor := ExtractStringValue obj "vendor"
                severity := ExtractStringValue obj "severity"
                kb := ExtractStringValue obj "kb" }
            if patch.patch_id = "" then none else some patch) }
      if command.asset_id ≠ "" ∧ command.asset_id ≠ config.asset_id then none
      else if ¬ ValidateSignature config command now then none
      else some command

end agent_patch

/-! ## execution/main.cpp and the executor stub -/

namespace agent_execution

open agent_patch

/-- A patch job handed to the executor (agent_execution.h); scheduled_at is
epoch seconds. -/
structure PatchJob where
  job_id : String := ""
  asset_id : String := ""
  reboot_policy : String := ""
  scheduled_at : Int := 0
  patches : List PatchDescriptor := []
deriving DecidableEq, Inhabited

/-- A patch job result (agent_execution.h); timestamps are epoch seconds. -/
structure PatchJobResult where
  job_id : String := ""
  status : String := ""
  result : String := ""
  exit_code : Int := 0
  reboot_required : Bool := false
  stdout_summary : String := ""
  stderr_summary : String := ""
  started_at : Int := 0
  completed_at : Int := 0
deriving DecidableEq, Inhabited

/-- ApplyPatchJob (execution/ExecutionService_stub.cpp), the executor the
execution service links against: failed/no_patches on an empty patch list,
completed/installed otherwise. -/
def ApplyPatchJob (job : PatchJob) (now : Int) : PatchJobResult :=
  { job_id := job.job_id
    status := if job.patches = [] then "failed" else "completed"
    result := if job.patches = [] then "no_patches" else "installed"
    exit_code := if job.patches = [] then 2 else 0
    reboot_required := job.reboot_policy = "required"
    stdout_summary := "stubbed patch execution"
    stderr_summary := ""
    started_at := now
    completed_at := now }

/-- The per-command body of the execution service loop (execution/main.cpp):
the acknowledgements it sends for one verified command, in order, together
with the executor result it reports.  waitIterations counts how many times
the wait loop observed the clock before the scheduled instant; the clock is
coarsened to a single instant, which no claim observes. -/
def JobLoopAcks (config : Config) (command : PatchJobCommand) (waitIterations : Nat)
    (now : Int) : List PatchJobAck × PatchJobResult :=
  let received : PatchJobAck :=
    { job_id := command.job_id, status := "received",
      detail := "Job accepted for execution.", acknowledged_at := now }
  let scheduled : PatchJobAck :=
    { job_id := command.job_id, status := "scheduled",
      detail := "Waiting until scheduled window.", acknowledged_at := now }
  let job : PatchJob :=
    { job_id := command.job_id
      asset_id := config.asset_id
      reboot_policy := command.reboot_policy
      scheduled_at := command.scheduled_at
      patches := command.patches }
  let result := ApplyPatchJob job now
  let terminal : PatchJobAck :=
    { job_id := command.job_id, status := "completed",
      detail := "Job executed and results reported.", acknowledged_at := now }
  (received :: List.replicate waitIterations scheduled ++ [terminal], result)

end agent_execution

/-! ## Specification-side definitions (worded from the claims, for
refinement comparisons against the embedded code) -/

namespace spec

open agent

/-- Claim C4 ack grammar, continuation after `received`: a prefix of
`scheduled*, running, (completed | failed | rejected)`. -/
def c4TailOk : List String → Bool
  | [] => true
  | "scheduled" :: r => c4TailOk r
  | "running" :: r =>
      match r with
      | [] => true
      | [t] => decide (t = "completed" ∨ t = "failed" ∨ t = "rejected")
      | _ => false
  | _ => false

/-- Claim C4 ack grammar: the status sequence is a prefix of
`received, scheduled*, running, (completed | failed | rejected)`. -/
def c4AckSeqOk : List String → Bool
  | [] => true
  | "received" :: r => c4TailOk r
  | _ => false

/-- Claim C6 decision table, worded directly from the claim: the seven rules
top-to-bottom, else the requested response with reason `action permitted`. -/
def claimC6Decision (policy : DefencePolicy) (signal : BehaviourSignal)
    (rateLimited : Bool) : ResponseAction × String :=
  if signal.rule_id = "" then (ResponseAction.kObserveOnly, "missing rule identifier")
  else if ¬ signal.response_defined then (ResponseAction.kObserveOnly, "response undefined")
  else if signal.confidence < policy.min_confidence_threshold then
    (ResponseAction.kObserveOnly, "confidence below threshold")
  else if RequiresProcessId signal.requested_response ∧ signal.process_id = "" then
    (ResponseAction.kObserveOnly, "missing process identifier")
  else if RequiresFilePath signal.requested_response ∧ signal.file_path = "" then
    (ResponseAction.kObserveOnly, "missing file path")
  else if policy.mode = PolicyMode.kObserveOnly then
    (ResponseAction.kObserveOnly, "policy observe-only")
  else if rateLimited then (ResponseAction.kObserveOnly, "rate limited")
  else (signal.requested_response, "action permitted")

/-- Amended C6 decision table: identical to the claim except for the extra
source rule between the confidence gate and the identifier gates — a signal
whose requested response is already ObserveOnly short-circuits with reason
`rule observe-only`. -/
def amendedC6Decision (policy : DefencePolicy) (signal : BehaviourSignal)
    (rateLimited : Bool) : ResponseAction × String :=
  if signal.rule_id = "" then (ResponseAction.kObserveOnly, "missing rule identifier")
  else if ¬ signal.response_defined then (ResponseAction.kObserveOnly, "response undefined")
  else if signal.confidence < policy.min_confidence_threshold then
    (ResponseAction.kObserveOnly, "confidence below threshold")
  else if signal.requested_response = ResponseAction.kObserveOnly then
    (ResponseAction.kObserveOnly, "rule observe-only")
  else if RequiresProcessId signal.requested_response ∧ signal.process_id = "" then
    (ResponseAction.kObserveOnly, "missing process identifier")
  else if RequiresFilePath signal.requested_response ∧ signal.file_path = "" then
    (ResponseAction.kObserveOnly, "missing file path")
  else if policy.mode = PolicyMode.kObserveOnly then
    (ResponseAction.kObserveOnly, "policy observe-only")
  else if rateLimited then (ResponseAction.kObserveOnly, "rate limited")
  else (signal.requested_response, "action permitted")

/-- Claim C8 envelope shape, worded from the claim: a single JSON object
whose keys are exactly kind, path and payload_json. -/
def c8EnvelopeShapeOk (content : String) : Bool :=
  (agent_patch.strFind content.data "\"kind\":\"".data 0).isSome &&
  (agent_patch.strFind content.data "\"path\":\"".data 0).isSome &&
  (agent_patch.strFind content.data "\"payload_json\":\"".data 0).isSome

/-- Claim C9 sanitisation, worded from the claim: every character outside
[A-Za-z0-9_-] replaced by an underscore, empty input mapped to the default. -/
def claimC9Sanitise (s : String) : String :=
  if s = "" then "tamsil_agent_pipe"
  else String.mk (s.data.map (fun c => if agent_ipc.pipeKeep c then c else '_'))

end spec

/-! ## Lemmas for the key-collision argument (claim C3) -/

namespace agent

theorem ofDigits_base256_inj : ∀ (l1 l2 : List Nat), l1.length = l2.length →
    (∀ x ∈ l1, x < 256) → (∀ x ∈ l2, x < 256) →
    Nat.ofDigits 256 l1 = Nat.ofDigits 256 l2 → l1 = l2 := by
  intro l1
  induction l1 with
  | nil =>
      intro l2 hlen _ _ _
      cases l2 with
      | nil => rfl
      | cons _ _ => simp at hlen
  | cons a t ih =>
      intro l2 hlen h1 h2 heq
      cases l2 with
      | nil => simp at hlen
      | cons b u =>
          simp only [List.length_cons, Nat.add_right_cancel_iff] at hlen
          simp only [Nat.ofDigits_cons] at heq
          have ha : a < 256 := h1 a (List.mem_cons_self a t)
          have hb : b < 256 := h2 b (List.mem_cons_self b u)
          have hab : a = b ∧ Nat.ofDigits 256 t = Nat.ofDigits 256 u := by
            constructor <;> omega
          rw [hab.1, ih u hlen (fun x hx => h1 x (List.mem_cons_of_mem a hx))
            (fun x hx => h2 x (List.mem_cons_of_mem b hx)) hab.2]

/-- A 33-byte key as a string, one character per byte value. -/
def keyOfFn (g : Fin 33 → Fin 256) : String :=
  String.mk (List.ofFn (fun i => Char.ofNat (g i)))

theorem toNat_ofNat_of_lt (n : Nat) (h : n < 256) : (Char.ofNat n).toNat = n := by
  have hv : n.isValidChar := Or.inl (by omega)
  simp [Char.ofNat, hv, Char.ofNatAux, Char.toNat, UInt32.toNat, BitVec.toNat_ofNatLt]

theorem strBytes_keyOfFn (g : Fin 33 → Fin 256) :
    strBytes (keyOfFn g) = List.ofFn (fun i => ((g i : Nat))) := by
  unfold strBytes keyOfFn
  rw [show (String.mk (List.ofFn (fun i => Char.ofNat (g i)))).data =
        List.ofFn (fun i => Char.ofNat (g i)) from rfl,
    List.map_ofFn]
  refine congrArg _ (funext fun i => ?_)
  exact toNat_ofNat_of_lt _ (g i).isLt

theorem keyOfFn_injective : Function.Injective keyOfFn := by
  intro g1 g2 h
  have hdata : List.ofFn (fun i => Char.ofNat (g1 i)) = List.ofFn (fun i => Char.ofNat (g2 i)) :=
    congrArg String.data h
  have hfn := congrFun (List.ofFn_injective hdata)
  funext i
  have := congrArg Char.toNat (hfn i)
  rw [toNat_ofNat_of_lt _ (g1 i).isLt, toNat_ofNat_of_lt _ (g2 i).isLt] at this
  exact Fin.ext this

theorem keyOfFn_length (g : Fin 33 → Fin 256) : (keyOfFn g).length = 33 := by
  unfold keyOfFn
  show (List.ofFn (fun i => Char.ofNat (g i))).length = 33
  rw [List.length_ofFn]

theorem keyOfFn_ne_empty (g : Fin 33 → Fin 256) : keyOfFn g ≠ "" := by
  intro h
  have := keyOfFn_length g
  rw [h] at this
  simp at this

/-- Pigeonhole over 32-byte outputs: any map from 33-byte keys to 32-byte
digests identifies two distinct keys. -/
theorem exists_ne_digest_eq (F : (Fin 33 → Fin 256) → List Nat)
    (hlen : ∀ g, (F g).length = 32) (hlt : ∀ g, ∀ x ∈ F g, x < 256) :
    ∃ g1 g2 : Fin 33 → Fin 256, g1 ≠ g2 ∧ F g1 = F g2 := by
  classical
  let f : (Fin 33 → Fin 256) → Fin (256 ^ 32) := fun g =>
    ⟨Nat.ofDigits 256 (F g), by
      have h256 := Nat.ofDigits_lt_base_pow_length (b := 256) (by norm_num) (hlt g)
      rwa [hlen g] at h256⟩
  obtain ⟨g1, g2, hne, heq⟩ := Fintype.exists_ne_map_eq_of_card_lt f
    (by rw [Fintype.card_fin, Fintype.card_fun, Fintype.card_fin, Fintype.card_fin]; norm_num)
  refine ⟨g1, g2, hne, ?_⟩
  have hv : Nat.ofDigits 256 (F g1) = Nat.ofDigits 256 (F g2) := congrArg Fin.val heq
  exact ofDigits_base256_inj _ _ (by rw [hlen g1, hlen g2]) (hlt g1) (hlt g2) hv

/-- Two distinct equal-length keys whose MACs agree on a fixed message exist:
there are more 33-byte keys than 256-bit digests. -/
theorem exists_colliding_keys (msg : List Nat) :
    ∃ g1 g2 : Fin 33 → Fin 256, g1 ≠ g2 ∧
      Crypto.hmacSha256 (strBytes (keyOfFn g1)) msg =
        Crypto.hmacSha256 (strBytes (keyOfFn g2)) msg :=
  exists_ne_digest_eq (fun g => Crypto.hmacSha256 (strBytes (keyOfFn g)) msg)
    (fun _ => Crypto.hmacSha256_length _ _) (fun _ => Crypto.hmacSha256_bytes_lt _ _)

end agent

/-! ## Claim C3 -/

namespace agent

/-- Claim C3 (amended): for every non-empty key the sign/verify round trip
succeeds, and verification of a signature produced under another key succeeds
exactly when the two signatures coincide — key inequality alone does not
force rejection, because distinct equal-length keys with colliding MACs
exist (see the counterexample theorem). -/
theorem C3_sign_verify_roundtrip (k k2 p : String) (t : Int) (sig sig2 : String)
    (hsig : SignPayload k p t = some sig) (hsig2 : SignPayload k2 p t = some sig2) :
    VerifySignature k p t sig = true ∧
    (VerifySignature k p t sig2 = true ↔ sig2 = sig) := by
  have hk : ¬ k = "" := by
    intro h
    rw [h] at hsig
    simp [SignPayload] at hsig
  unfold VerifySignature
  simp only [if_neg hk, hsig]
  refine ⟨(SecureEquals_eq_true_iff sig sig).mpr rfl, ?_⟩
  rw [SecureEquals_eq_true_iff sig sig2]
  exact eq_comm

/-- Witness for C3 at concrete keys k and q, payload x, timestamp 0. -/
theorem C3_sign_verify_roundtrip_witness :
    VerifySignature "k" "x" 0 "s6D6upAopyMQtBlSF6bsSbP5jOg6RMjYgZTOmm51t1o=" = true ∧
    (VerifySignature "k" "x" 0 "oaLgjSuoknxo3qGf+NFAp0jjIPZ3v/iMCo9py74RwOU=" = true ↔
      "oaLgjSuoknxo3qGf+NFAp0jjIPZ3v/iMCo9py74RwOU=" =
        "s6D6upAopyMQtBlSF6bsSbP5jOg6RMjYgZTOmm51t1o=") :=
  C3_sign_verify_roundtrip "k" "q" "x" 0
    "s6D6upAopyMQtBlSF6bsSbP5jOg6RMjYgZTOmm51t1o="
    "oaLgjSuoknxo3qGf+NFAp0jjIPZ3v/iMCo9py74RwOU="
    (by decide) (by decide)

/-- Claim C3 counterexample: the claimed property that a signature made under
any other equal-length key is always rejected is false; by pigeonhole over
33-byte keys two distinct keys sign the empty payload at timestamp 0
identically, and verification then accepts the foreign signature. -/
theorem C3_counterexample :
    ¬ ∀ (k k2 p : String) (t : Int) (sig2 : String),
        k ≠ k2 → k.length = k2.length → SignPayload k2 p t = some sig2 →
        VerifySignature k p t sig2 = false := by
  intro hclaim
  obtain ⟨g1, g2, hne, hcoll⟩ :=
    exists_colliding_keys (strBytes (toString (0 : Int) ++ "." ++ ""))
  have hk1 : ¬ keyOfFn g1 = "" := keyOfFn_ne_empty g1
  have hk2 : ¬ keyOfFn g2 = "" := keyOfFn_ne_empty g2
  have hsig2 : SignPayload (keyOfFn g2) "" 0 =
      some (String.mk (Crypto.base64Encode (Crypto.hmacSha256 (strBytes (keyOfFn g2))
        (strBytes (toString (0 : Int) ++ "." ++ ""))))) := by
    unfold SignPayload
    rw [if_neg hk2]
  have happ := hclaim (keyOfFn g1) (keyOfFn g2) "" 0 _
    (fun h => hne (keyOfFn_injective h))
    (by rw [keyOfFn_length, keyOfFn_length]) hsig2
  have hver : VerifySignature (keyOfFn g1) "" 0
      (String.mk (Crypto.base64Encode (Crypto.hmacSha256 (strBytes (keyOfFn g2))
        (strBytes (toString (0 : Int) ++ "." ++ ""))))) = true := by
    have hsig1 : SignPayload (keyOfFn g1) "" 0 =
        some (String.mk (Crypto.base64Encode (Crypto.hmacSha256 (strBytes (keyOfFn g2))
          (strBytes (toString (0 : Int) ++ "." ++ ""))))) := by
      unfold SignPayload
      rw [if_neg hk1, hcoll]
    unfold VerifySignature
    rw [if_neg hk1, hsig1]
    exact (SecureEquals_eq_true_iff _ _).mpr rfl
  rw [happ] at hver
  exact absurd hver (by simp)

end agent

/-! ## Claim C7 -/

namespace agent

/-- Claim C7 counterexample: with base 400 and cap 300 and no failures the
computed interval is 400, above the cap — the claimed bound does not hold for
all base and cap. -/
theorem C7_counterexample :
    ComputeHeartbeatIntervalSeconds 400 0 300 = 400 ∧
      ¬ ComputeHeartbeatIntervalSeconds 400 0 300 ≤ 300 := by decide

/-- Claim C7 (amended): whenever 0 < base ≤ cap, the heartbeat interval is
monotone non-decreasing in the failure count and bounded by the cap; the
concrete backoff table for base 45 and cap 300 holds as claimed. -/
theorem C7_heartbeat_backoff (base cap f g : Int)
    (hbase : 0 < base) (hcap : base ≤ cap) (hfg : f ≤ g) :
    (ComputeHeartbeatIntervalSeconds base f cap ≤ ComputeHeartbeatIntervalSeconds base g cap ∧
     ComputeHeartbeatIntervalSeconds base f cap ≤ cap) ∧
    (ComputeHeartbeatIntervalSeconds 45 0 300 = 45 ∧
     ComputeHeartbeatIntervalSeconds 45 1 300 = 90 ∧
     ComputeHeartbeatIntervalSeconds 45 2 300 = 180 ∧
     ComputeHeartbeatIntervalSeconds 45 3 300 = 300 ∧
     ComputeHeartbeatIntervalSeconds 45 4 300 = 300 ∧
     ComputeHeartbeatIntervalSeconds 45 5 300 = 300) := by
  refine ⟨?_, by decide⟩
  rw [ComputeHeartbeatIntervalSeconds_eq base f cap hbase,
    ComputeHeartbeatIntervalSeconds_eq base g cap hbase]
  have hpow : ∀ k : Nat, base ≤ base * 2 ^ k := fun k =>
    le_mul_of_one_le_right (by omega) (one_le_pow₀ (by norm_num))
  by_cases hf : f ≤ 0
  · rw [if_pos hf]
    by_cases hg : g ≤ 0
    · rw [if_pos hg]
      exact ⟨le_refl base, hcap⟩
    · rw [if_neg hg]
      exact ⟨le_min (hpow _) hcap, hcap⟩
  · rw [if_neg hf, if_neg (by omega : ¬ g ≤ 0)]
    constructor
    · refine min_le_min (mul_le_mul_of_nonneg_left ?_ (by omega)) (le_refl cap)
      exact pow_le_pow_right₀ (by norm_num) (Int.toNat_le_toNat hfg)
    · exact min_le_right _ _

/-- Witness for C7 at base 45, cap 300, failure counts 2 and 3. -/
theorem C7_heartbeat_backoff_witness :
    ((ComputeHeartbeatIntervalSeconds 45 2 300 ≤ ComputeHeartbeatIntervalSeconds 45 3 300 ∧
      ComputeHeartbeatIntervalSeconds 45 2 300 ≤ 300) ∧
     (ComputeHeartbeatIntervalSeconds 45 0 300 = 45 ∧
      ComputeHeartbeatIntervalSeconds 45 1 300 = 90 ∧
      ComputeHeartbeatIntervalSeconds 45 2 300 = 180 ∧
      ComputeHeartbeatIntervalSeconds 45 3 300 = 300 ∧
      ComputeHeartbeatIntervalSeconds 45 4 300 = 300 ∧
      ComputeHeartbeatIntervalSeconds 45 5 300 = 300)) :=
  C7_heartbeat_backoff 45 300 2 3 (by decide) (by decide) (by decide)

end agent

/-! ## Claim C9 -/

namespace agent_ipc

/-- The per-character action of the sanitiser: keep, drop, or replace. -/
def pipeMapChar (c : Char) : Option Char :=
  if pipeKeep c then some c else if pipeDrop c then none else some '_'

theorem sanitize_fold_eq (l : List Char) (acc : List Char) :
    l.foldl (fun acc c =>
        if pipeKeep c then acc ++ [c]
        else if pipeDrop c then acc
        else acc ++ ['_']) acc = acc ++ l.filterMap pipeMapChar := by
  induction l generalizing acc with
  | nil => simp
  | cons c t ih =>
      simp only [List.foldl_cons]
      by_cases hk : pipeKeep c
      · simp [hk, ih, pipeMapChar]
      · by_cases hd : pipeDrop c
        · simp [hk, hd, ih, pipeMapChar]
        · simp [hk, hd, ih, pipeMapChar]

theorem filterMap_pipeMapChar_length (l : List Char)
    (hnd : ∀ c ∈ l, pipeDrop c = false) :
    (l.filterMap pipeMapChar).length = l.length := by
  induction l with
  | nil => rfl
  | cons c t ih =>
      have hc : pipeDrop c = false := hnd c (List.mem_cons_self c t)
      have ht := ih (fun x hx => hnd x (List.mem_cons_of_mem c hx))
      by_cases hk : pipeKeep c
      · simp [pipeMapChar, hk, ht]
      · simp [pipeMapChar, hk, hc, ht]

/-- Claim C9 counterexample: the claim that every out-of-class character is
replaced by an underscore (hence lengths of non-empty names are preserved)
fails — the path separator characters are removed, and a name made only of
them collapses to the default.  The claim-worded sanitiser disagrees with
the code on "a.b". -/
theorem C9_counterexample :
    SanitizePipeName "a.b" = "ab" ∧
    (SanitizePipeName "a.b").length ≠ "a.b".length ∧
    SanitizePipeName ":" = "tamsil_agent_pipe" ∧
    spec.claimC9Sanitise "a.b" = "a_b" := by decide

/-- Claim C9 (amended): the sanitised name is non-empty and matches
[A-Za-z0-9_-]+; characters in the class are kept, the path separators
backslash, dot, colon and slash are removed, every other character is
replaced by an underscore, and an empty result falls back to the fixed
default — so lengths are preserved exactly for names free of the four
separator characters. -/
theorem C9_sanitize (s : String) :
    (SanitizePipeName s ≠ "" ∧ ∀ c ∈ (SanitizePipeName s).data, pipeKeep c = true) ∧
    SanitizePipeName s =
      (if s.data.filterMap pipeMapChar = [] then "tamsil_agent_pipe"
       else String.mk (s.data.filterMap pipeMapChar)) ∧
    (s ≠ "" → (∀ c ∈ s.data, pipeDrop c = false) →
      (SanitizePipeName s).length = s.length) := by
  have hfold : SanitizePipeName s =
      (if s.data.filterMap pipeMapChar = [] then "tamsil_agent_pipe"
       else String.mk (s.data.filterMap pipeMapChar)) := by
    unfold SanitizePipeName
    rw [sanitize_fold_eq s.data []]
    rfl
  refine ⟨⟨?_, ?_⟩, hfold, ?_⟩
  · rw [hfold]
    split
    · decide
    · next hne =>
        intro hcon
        exact hne (congrArg String.data hcon)
  · intro c hc
    rw [hfold] at hc
    rcases Decidable.em (s.data.filterMap pipeMapChar = []) with hnil | hnil
    · rw [if_pos hnil] at hc
      revert hc
      revert c
      decide
    · rw [if_neg hnil] at hc
      have hc2 : c ∈ s.data.filterMap pipeMapChar := hc
      obtain ⟨a, _, ha⟩ := List.mem_filterMap.mp hc2
      unfold pipeMapChar at ha
      by_cases hk : pipeKeep a
      · rw [if_pos hk] at ha
        cases ha
        exact hk
      · rw [if_neg hk] at ha
        by_cases hd : pipeDrop a
        · rw [if_pos hd] at ha
          cases ha
        · rw [if_neg hd] at ha
          cases ha
          decide
  · intro hs hnd
    have hlen := filterMap_pipeMapChar_length s.data hnd
    have hne : ¬ s.data.filterMap pipeMapChar = [] := by
      intro hnil
      apply hs
      have : s.data.length = 0 := by rw [← hlen, hnil]; rfl
      cases s with
      | mk d =>
          cases d with
          | nil => rfl
          | cons _ _ => simp at this
    rw [hfold, if_neg hne]
    exact hlen

/-- Witness for C9 at the name a?b, which has no separator characters. -/
theorem C9_sanitize_witness : (SanitizePipeName "a?b").length = "a?b".length :=
  (C9_sanitize "a?b").2.2 (by decide) (by decide)

end agent_ipc

/-! ## Claim C6 -/

namespace agent

/-- An enforceable policy with a zero threshold used for the C6 witness
inputs. -/
def polC6 : DefencePolicy :=
  { policy_id := "P1"
    mode := PolicyMode.kObserveOnly
    min_confidence_threshold := 0
    max_actions_per_window := 5
    action_window_seconds := 300
    allow_kill_process := false
    allow_quarantine_file := false
    allow_block_network := false
    allow_prevent_execution := false }

/-- A valid high-confidence signal whose requested response is ObserveOnly. -/
def sigC6 : BehaviourSignal :=
  { type := BehaviourSignalType.kProcess
    name := "beh"
    rule_id := "R1"
    process_id := ""
    file_path := ""
    command_line := ""
    confidence := 1
    observed_at := "2026-01-01T00:00:00Z"
    response_defined := true
    requested_response := ResponseAction.kObserveOnly }

/-- Claim C6 counterexample: on a signal that reaches the claimed rule 6
(policy mode Observe) with requested response already ObserveOnly, the code
answers with reason `rule observe-only` — a rule the claim does not list —
where the claimed cascade answers `policy observe-only`. -/
theorem C6_counterexample :
    ((EvaluateSignal polC6 [] 0 sigC6).proposed_response,
      (EvaluateSignal polC6 [] 0 sigC6).decision_reason) ≠
      spec.claimC6Decision polC6 sigC6 (IsRateLimited polC6 [] 0) ∧
    (EvaluateSignal polC6 [] 0 sigC6).decision_reason = "rule observe-only" ∧
    spec.claimC6Decision polC6 sigC6 (IsRateLimited polC6 [] 0) =
      (ResponseAction.kObserveOnly, "policy observe-only") := by decide

/-- Claim C6 (amended): EvaluateSignal implements the claimed top-to-bottom
cascade extended with one extra rule after the confidence gate — a requested
response of ObserveOnly short-circuits with reason `rule observe-only`; the
remaining rules and the `action permitted` default are exactly as claimed. -/
theorem C6_evaluate_signal (policy : DefencePolicy) (ts : List Int) (now : Int)
    (signal : BehaviourSignal) :
    ((EvaluateSignal policy ts now signal).proposed_response,
      (EvaluateSignal policy ts now signal).decision_reason) =
      spec.amendedC6Decision policy signal (IsRateLimited policy ts now) := by
  unfold EvaluateSignal spec.amendedC6Decision
  dsimp only
  by_cases h1 : signal.rule_id = ""
  · simp only [if_pos h1]
  · simp only [if_neg h1]
    by_cases h2 : ¬ signal.response_defined
    · simp only [if_pos h2]
    · simp only [if_neg h2]
      by_cases h3 : signal.confidence < policy.min_confidence_threshold
      · simp only [if_pos h3]
      · simp only [if_neg h3]
        by_cases h4 : signal.requested_response = ResponseAction.kObserveOnly
        · simp only [if_pos h4]
          rw [h4]
        · simp only [if_neg h4]
          by_cases h5 : RequiresProcessId signal.requested_response ∧ signal.process_id = ""
          · simp only [if_pos h5]
          · simp only [if_neg h5]
            by_cases h6 : RequiresFilePath signal.requested_response ∧ signal.file_path = ""
            · simp only [if_pos h6]
            · simp only [if_neg h6]
              by_cases h7 : policy.mode = PolicyMode.kObserveOnly
              · simp only [if_pos h7]
              · simp only [if_neg h7]
                by_cases h8 : IsRateLimited policy ts now
                · simp only [if_pos h8]
                  rw [if_neg (by decide : ¬ ("rate limited" = ""))]
                · simp only [if_neg h8]
                  simp

end agent

/-! ## Claim C10 -/

namespace agent

/-- Claim C10: in Observe mode, applying any finding whose proposed response
is an enforcement action yields evidence downgraded to ObserveOnly with
permitted_by_policy false (whatever the per-action allow bits say, since the
mode gate precedes them), the reason is rewritten to `action blocked by
policy`, and the action-timestamp window is left untouched. -/
theorem C10_observe_mode_downgrade (policy : DefencePolicy) (ts : List Int) (now : Int)
    (finding : DefenceFinding)
    (hmode : policy.mode = PolicyMode.kObserveOnly)
    (hact : finding.proposed_response ≠ ResponseAction.kObserveOnly) :
    (ApplyResponse policy ts now finding).1.action = ResponseAction.kObserveOnly ∧
    (ApplyResponse policy ts now finding).1.permitted_by_policy = false ∧
    (ApplyResponse policy ts now finding).1.decision_reason = "action blocked by policy" ∧
    (ApplyResponse policy ts now finding).2 = ts := by
  have hallow : IsResponseAllowed policy finding.proposed_response = false := by
    unfold IsResponseAllowed
    rw [if_neg hact, if_pos hmode]
  unfold ApplyResponse
  simp [hallow]

/-- An observe-mode policy with every allow bit set, for the C10 witness. -/
def polC10 : DefencePolicy :=
  { policy_id := "P2"
    mode := PolicyMode.kObserveOnly
    min_confidence_threshold := 0
    max_actions_per_window := 5
    action_window_seconds := 300
    allow_kill_process := true
    allow_quarantine_file := true
    allow_block_network := true
    allow_prevent_execution := true }

/-- A finding proposing a kill, for the C10 witness. -/
def findC10 : DefenceFinding :=
  { detection_id := "DEF-beh"
    rule_id := "R1"
    behaviour_signature := "beh"
    confidence := 1
    process_id := "42"
    file_path := ""
    command_line := ""
    timestamp := "2026-01-01T00:00:00Z"
    proposed_response := ResponseAction.kKillProcess
    decision_reason := "action permitted" }

/-- Witness for C10: observe mode with all allow bits on, non-empty window. -/
theorem C10_observe_mode_downgrade_witness :
    (ApplyResponse polC10 [7] 100 findC10).1.action = ResponseAction.kObserveOnly ∧
    (ApplyResponse polC10 [7] 100 findC10).1.permitted_by_policy = false ∧
    (ApplyResponse polC10 [7] 100 findC10).1.decision_reason = "action blocked by policy" ∧
    (ApplyResponse polC10 [7] 100 findC10).2 = [7] :=
  C10_observe_mode_downgrade polC10 [7] 100 findC10 (by decide) (by decide)

end agent

/-! ## Claim C5 -/

namespace agent_evidence

theorem hexEncode_length (l : List Nat) : (Crypto.hexEncode l).length = 2 * l.length := by
  induction l with
  | nil => rfl
  | cons b t ih =>
      unfold Crypto.hexEncode at ih ⊢
      rw [List.flatMap_cons, List.length_append, ih]
      simp only [List.length_cons, List.length_nil]
      omega

theorem hexc_mem (n : Nat) : Crypto.hexc n ∈ "0123456789abcdef".data := by
  unfold Crypto.hexc
  by_cases h : n < "0123456789abcdef".data.length
  · rw [List.getD_eq_getElem _ _ h]
    exact List.getElem_mem h
  · rw [List.getD_eq_default _ _ (by omega)]
    decide

theorem hexEncode_chars (l : List Nat) :
    ∀ c ∈ Crypto.hexEncode l, c ∈ "0123456789abcdef".data := by
  intro c hc
  unfold Crypto.hexEncode at hc
  obtain ⟨b, _, hb⟩ := List.mem_flatMap.mp hc
  simp only [List.mem_cons, List.not_mem_nil, or_false] at hb
  rcases hb with hb | hb <;>
    · rw [hb]
      exact hexc_mem _

theorem SealEvidence_skip (fs : FileSystem) (eid : String) (pre rest : List EvidenceItem)
    (hpre : ∀ x ∈ pre, x.evidence_id ≠ eid) :
    SealEvidence fs eid (pre ++ rest) = pre ++ SealEvidence fs eid rest := by
  induction pre with
  | nil => rfl
  | cons p ps ih =>
      have hp : p.evidence_id ≠ eid := hpre p (List.mem_cons_self p ps)
      simp only [List.cons_append, SealEvidence, if_neg hp, List.append_eq]
      rw [ih (fun x hx => hpre x (List.mem_cons_of_mem p hx))]

/-- Claim C5: sealing an item whose artefact file exists sets exactly that
item hash to the 64-character lowercase-hex SHA-256 of the file contents at
seal time, leaving every other field and item unchanged; when the artefact
file is missing the broker state is unchanged and the item stays unsealed. -/
theorem C5_seal_evidence (fs : FileSystem) (eid : String) (pre post : List EvidenceItem)
    (it : EvidenceItem) (contents : List Nat)
    (hpre : ∀ x ∈ pre, x.evidence_id ≠ eid)
    (hit : it.evidence_id = eid)
    (hfile : fs.read it.storage_path = some contents) :
    (SealEvidence fs eid (pre ++ it :: post) =
        pre ++ { it with hash := String.mk (Crypto.hexEncode (Crypto.sha256 contents)) } :: post ∧
      (String.mk (Crypto.hexEncode (Crypto.sha256 contents))).length = 64 ∧
      ∀ c ∈ (String.mk (Crypto.hexEncode (Crypto.sha256 contents))).data,
        c ∈ "0123456789abcdef".data) ∧
    (∀ (fs2 : FileSystem) (pre2 post2 : List EvidenceItem) (it2 : EvidenceItem),
      (∀ x ∈ pre2, x.evidence_id ≠ eid) → it2.evidence_id = eid →
      fs2.read it2.storage_path = none →
      SealEvidence fs2 eid (pre2 ++ it2 :: post2) = pre2 ++ it2 :: post2) := by
  constructor
  · refine ⟨?_, ?_, hexEncode_chars _⟩
    · rw [SealEvidence_skip fs eid pre (it :: post) hpre]
      simp only [SealEvidence, if_pos hit, hfile, Option.isSome_some, if_pos]
      unfold ComputeSHA256Hex
      rw [hfile]
    · show (Crypto.hexEncode (Crypto.sha256 contents)).length = 64
      rw [hexEncode_length, Crypto.sha256_length]
  · intro fs2 pre2 post2 it2 hpre2 hit2 hfile2
    rw [SealEvidence_skip fs2 eid pre2 (it2 :: post2) hpre2]
    simp only [SealEvidence, if_pos hit2, hfile2, Option.isSome_none, Bool.false_eq_true,
      if_false, ite_false]

/-- The file system for the C5 witness: one file containing the bytes of
the word hello. -/
def fsC5 : FileSystem := [("tmp.bin", agent.strBytes "hello")]

/-- The unsealed item for the C5 witness. -/
def itC5 : EvidenceItem :=
  { evidence_id := "e1", source := "execution", type := "patch", related_id := "j1",
    hash := "", storage_path := "tmp.bin", captured_at := 100 }

/-- Witness for C5: sealing the hello artefact hashes it (the well-known
SHA-256 value 2cf24dba...) and the missing-file branch leaves an untouched
store untouched. -/
theorem C5_seal_evidence_witness :
    (SealEvidence fsC5 "e1" ([] ++ itC5 :: []) =
        [] ++ { itC5 with
          hash := String.mk (Crypto.hexEncode (Crypto.sha256 (agent.strBytes "hello"))) } :: [] ∧
      (String.mk (Crypto.hexEncode (Crypto.sha256 (agent.strBytes "hello")))).length = 64 ∧
      ∀ c ∈ (String.mk (Crypto.hexEncode (Crypto.sha256 (agent.strBytes "hello")))).data,
        c ∈ "0123456789abcdef".data) ∧
    (∀ (fs2 : FileSystem) (pre2 post2 : List EvidenceItem) (it2 : EvidenceItem),
      (∀ x ∈ pre2, x.evidence_id ≠ "e1") → it2.evidence_id = "e1" →
      fs2.read it2.storage_path = none →
      SealEvidence fs2 "e1" (pre2 ++ it2 :: post2) = pre2 ++ it2 :: post2) :=
  C5_seal_evidence fsC5 "e1" [] [] itC5 (agent.strBytes "hello")
    (by simp) (by decide) (by decide)

end agent_evidence

/-! ## Claim C8 -/

namespace agent_evidence

/-- Claim C8 counterexample: the envelope actually spooled for a concrete
evidence upload is a flat evidence record named `evidence_<id>.json` — it is
not the claimed three-key object, having no `path` and no `payload_json`
member at all. -/
theorem C8_counterexample :
    EnqueueUplinkEvidence "uplink_queue" "e1" "t1" "A" "src" "ty" "r1" "h1"
        "file://pkg" "100" =
      some ("uplink_queue/evidence_e1.json",
        "\x7b\"kind\":\"evidence\",\"evidence_id\":\"e1\",\"tenant_id\":\"t1\"," ++
        "\"asset_id\":\"A\",\"source\":\"src\",\"type\":\"ty\",\"related_id\":\"r1\"," ++
        "\"hash\":\"h1\",\"storage_uri\":\"file://pkg\",\"captured_at\":\"100\"\x7d") ∧
    spec.c8EnvelopeShapeOk
      ("\x7b\"kind\":\"evidence\",\"evidence_id\":\"e1\",\"tenant_id\":\"t1\"," ++
       "\"asset_id\":\"A\",\"source\":\"src\",\"type\":\"ty\",\"related_id\":\"r1\"," ++
       "\"hash\":\"h1\",\"storage_uri\":\"file://pkg\",\"captured_at\":\"100\"\x7d") = false := by
  decide

/-- Claim C8 (amended): whenever the queue directory, evidence id and hash
are non-empty, the writer spools exactly one envelope, in the queue
directory (which it creates if missing) under the name
`evidence_<evidence_id>.json`, whose contents are the flat JSON evidence
object with kind `evidence` and the escaped field values; the write is a
plain stream write, not a write-then-rename.  Nothing is spooled when a
required field is empty. -/
theorem C8_enqueue (queue_dir evidence_id tenant_id asset_id source ty related_id
    hash storage_uri captured_at : String)
    (hq : queue_dir ≠ "") (he : evidence_id ≠ "") (hh : hash ≠ "") :
    EnqueueUplinkEvidence queue_dir evidence_id tenant_id asset_id source ty
        related_id hash storage_uri captured_at =
      some (queue_dir ++ "/" ++ ("evidence_" ++ evidence_id ++ ".json"),
        "\x7b" ++
        "\"kind\":\"evidence\"," ++
        "\"evidence_id\":\"" ++ EscapeJsonString evidence_id ++ "\"," ++
        "\"tenant_id\":\"" ++ EscapeJsonString tenant_id ++ "\"," ++
        "\"asset_id\":\"" ++ EscapeJsonString asset_id ++ "\"," ++
        "\"source\":\"" ++ EscapeJsonString source ++ "\"," ++
        "\"type\":\"" ++ EscapeJsonString ty ++ "\"," ++
        "\"related_id\":\"" ++ EscapeJsonString related_id ++ "\"," ++
        "\"hash\":\"" ++ EscapeJsonString hash ++ "\"," ++
        "\"storage_uri\":\"" ++ EscapeJsonString storage_uri ++ "\"," ++
        "\"captured_at\":\"" ++ EscapeJsonString captured_at ++ "\"" ++
        "\x7d") ∧
    EnqueueUplinkEvidence "" evidence_id tenant_id asset_id source ty related_id
        hash storage_uri captured_at = none := by
  constructor
  · unfold EnqueueUplinkEvidence
    rw [if_neg (by simp [hq, he, hh])]
  · unfold EnqueueUplinkEvidence
    rw [if_pos (Or.inl rfl)]

/-- Witness for C8 at concrete field values. -/
theorem C8_enqueue_witness :
    EnqueueUplinkEvidence "q" "e9" "t9" "A9" "s9" "ty9" "r9" "h9" "u9" "99" =
      some ("q" ++ "/" ++ ("evidence_" ++ "e9" ++ ".json"),
        "\x7b" ++
        "\"kind\":\"evidence\"," ++
        "\"evidence_id\":\"" ++ EscapeJsonString "e9" ++ "\"," ++
        "\"tenant_id\":\"" ++ EscapeJsonString "t9" ++ "\"," ++
        "\"asset_id\":\"" ++ EscapeJsonString "A9" ++ "\"," ++
        "\"source\":\"" ++ EscapeJsonString "s9" ++ "\"," ++
        "\"type\":\"" ++ EscapeJsonString "ty9" ++ "\"," ++
        "\"related_id\":\"" ++ EscapeJsonString "r9" ++ "\"," ++
        "\"hash\":\"" ++ EscapeJsonString "h9" ++ "\"," ++
        "\"storage_uri\":\"" ++ EscapeJsonString "u9" ++ "\"," ++
        "\"captured_at\":\"" ++ EscapeJsonString "99" ++ "\"" ++
        "\x7d") ∧
    EnqueueUplinkEvidence "" "e9" "t9" "A9" "s9" "ty9" "r9" "h9" "u9" "99" = none :=
  C8_enqueue "q" "e9" "t9" "A9" "s9" "ty9" "r9" "h9" "u9" "99"
    (by decide) (by decide) (by decide)

end agent_evidence

/-! ## Claim C4 -/

namespace agent_execution

open agent_patch

/-- The configuration for the C4 evaluation. -/
def cfgC4 : Config := { asset_id := "A", shared_key := "k" }

/-- A verified command with an empty patch list — the executor stub reports
status failed on it. -/
def cmdC4 : PatchJobCommand :=
  { job_id := "j3", asset_id := "A", reboot_policy := "none",
    scheduled_at := 1700000000, scheduled_at_raw := "2023-11-14T22:13:20Z",
    patches := [], issued_at_epoch := 1700000000, nonce := "n3", signature := "s" }

/-- Claim C4 divergence, evaluated at the failing input: for a verified
command whose execution fails (empty patch list), the service emits the ack
statuses received, completed — no running ack ever, and the terminal ack says
completed even though the executor result status is failed; the sequence is
not a prefix of the claimed grammar. -/
theorem C4_terminal_ack_divergence :
    spec.c4AckSeqOk
      ((JobLoopAcks cfgC4 cmdC4 0 1700000000).1.map PatchJobAck.status) = false ∧
    (JobLoopAcks cfgC4 cmdC4 0 1700000000).2.status = "failed" ∧
    (JobLoopAcks cfgC4 cmdC4 0 1700000000).1.map PatchJobAck.status =
      ["received", "completed"] ∧
    (JobLoopAcks cfgC4 cmdC4 2 1700000000).1.map PatchJobAck.status =
      ["received", "scheduled", "scheduled", "completed"] := by decide

end agent_execution

/-! ## Claims C1 and C2: concrete poll inputs -/

namespace agent_patch

/-- The polling configuration: asset A, shared key k. -/
def cfgPoll : Config := { asset_id := "A", shared_key := "k", transport_url := "https://cp" }

/-- A correctly signed command body for asset A with nonce n1. -/
def bodyAccepted : String :=
  "\x7b\"job_id\":\"j1\",\"asset_id\":\"A\",\"scheduled_at\":\"2026-01-01T00:00:00Z\"," ++
  "\"reboot_policy\":\"none\",\"issued_at\":1700000000,\"nonce\":\"n1\"," ++
  "\"signature\":\"OtyjtAsurBaHm3lzAKVBul1vfn7Gmo/yrf1EAbEww/Y=\"," ++
  "\"patches\":[\x7b\"patch_id\":\"p1\",\"title\":\"T\",\"vendor\":\"V\"," ++
  "\"severity\":\"low\",\"kb\":\"KB1\"\x7d]\x7d"

/-- The command parsed and accepted from bodyAccepted. -/
def cmdAccepted : PatchJobCommand :=
  { job_id := "j1", asset_id := "A", reboot_policy := "none",
    scheduled_at := 1767225600, scheduled_at_raw := "2026-01-01T00:00:00Z",
    patches := [{ patch_id := "p1", title := "T", vendor := "V",
                  severity := "low", kb := "KB1" }],
    issued_at_epoch := 1700000000, nonce := "n1",
    signature := "OtyjtAsurBaHm3lzAKVBul1vfn7Gmo/yrf1EAbEww/Y=" }

/-- A correctly signed command body whose asset_id field is the empty
string, which the asset check lets through. -/
def bodyEmptyAsset : String :=
  "\x7b\"job_id\":\"j2\",\"asset_id\":\"\",\"scheduled_at\":\"2026-01-01T00:00:00Z\"," ++
  "\"reboot_policy\":\"none\",\"issued_at\":1700000000,\"nonce\":\"n2\"," ++
  "\"signature\":\"e3lF18hpZpqAsRD81bF5gtzsum2oG6cgNlq7Rw3OCZc=\"," ++
  "\"patches\":[]\x7d"

/-- The command parsed and accepted from bodyEmptyAsset. -/
def cmdEmptyAsset : PatchJobCommand :=
  { job_id := "j2", asset_id := "", reboot_policy := "none",
    scheduled_at := 1767225600, scheduled_at_raw := "2026-01-01T00:00:00Z",
    patches := [], issued_at_epoch := 1700000000, nonce := "n2",
    signature := "e3lF18hpZpqAsRD81bF5gtzsum2oG6cgNlq7Rw3OCZc=" }

/-- Claim C2, evaluated at the failing input: the client keeps no nonce
state — its result is a pure function of configuration and response — so two
successive polls of the same response both return the accepted command with
the same nonce, and no rejected acknowledgement with detail replay exists
anywhere in the agent to be emitted. -/
theorem C2_replay_accepted_twice :
    (PollNextPatchJob cfgPoll true 200 bodyAccepted 1700000000,
     PollNextPatchJob cfgPoll true 200 bodyAccepted 1700000000) =
      (some cmdAccepted, some cmdAccepted) ∧
    cmdAccepted.nonce = "n1" := by decide

/-- Claim C1 counterexample: a signed command whose asset_id field is empty
is returned by the poll even though it differs from the configured asset id —
the asset check only rejects non-empty mismatches. -/
theorem C1_counterexample :
    PollNextPatchJob cfgPoll true 200 bodyEmptyAsset 1700000000 = some cmdEmptyAsset ∧
    cmdEmptyAsset.asset_id ≠ cfgPoll.asset_id ∧
    cfgPoll.asset_id = "A" := by decide

/-- Claim C1 (amended): every command the poll returns has an asset id that
is empty or equal to the configured asset id, a non-zero issue timestamp
within the 300 second skew window of the polling clock, and a signature that
verifies over the canonical signing payload (by the constant-time
comparison); a command failing any of these checks is not returned. -/
theorem C1_poll_validation (config : Config) (curl_ok : Bool) (http_code : Int)
    (response : String) (now : Int) (c : PatchJobCommand)
    (h : PollNextPatchJob config curl_ok http_code response now = some c) :
    (c.asset_id = "" ∨ c.asset_id = config.asset_id) ∧
    c.issued_at_epoch ≠ 0 ∧
    llabs (now - c.issued_at_epoch) ≤ kSignatureSkewSeconds ∧
    agent.VerifySignature config.shared_key (BuildSignaturePayload c)
      c.issued_at_epoch c.signature = true := by
  unfold PollNextPatchJob at h
  dsimp only at h
  split_ifs at h with hcurl h204 hrange hjob hasset hval
  all_goals cases h
  push_neg at hasset
  constructor
  · by_cases ha : ExtractStringValue response.data "asset_id" = ""
    · exact Or.inl ha
    · exact Or.inr (hasset ha)
  · unfold ValidateSignature at hval
    split_ifs at hval with hkey hskew
    push_neg at hskew
    exact ⟨hskew.1, hskew.2, hval⟩

/-- Witness for C1 at the accepted concrete poll input. -/
theorem C1_poll_validation_witness :
    (cmdAccepted.asset_id = "" ∨ cmdAccepted.asset_id = cfgPoll.asset_id) ∧
    cmdAccepted.issued_at_epoch ≠ 0 ∧
    llabs (1700000000 - cmdAccepted.issued_at_epoch) ≤ kSignatureSkewSeconds ∧
    agent.VerifySignature cfgPoll.shared_key (BuildSignaturePayload cmdAccepted)
      cmdAccepted.issued_at_epoch cmdAccepted.signature = true :=
  C1_poll_validation cfgPoll true 200 bodyAccepted 1700000000 cmdAccepted (by decide)

end agent_patch
